import Mathlib

/-!
Shallow embedding of the OpenFOAM motorbike visualisation scripts
(`cfd_flow_animation.py` and `motorbike_mesh_visualisation.py`).

The scripts are orchestration over a rendering library: they decide which
slices, seeds, colors and camera poses to request. We embed each view
composer as a pure function from its inputs to the ordered list of draw
commands it issues, the loader as a function over an abstract file listing,
and the frame driver's arithmetic (angle sequence, progress checkpoints)
over exact rationals and naturals. Library-owned behaviour (mesh reading,
streamline integration) is modelled as data carried by the inputs:
a file's read result is an `Option`, a field's streamline integration is
an `Except`-valued method.
-/

/-- A 3-vector with exact rational coordinates. -/
abbrev Vec3 : Type := ℚ × ℚ × ℚ

/-- A polygonal surface part, as loaded from one VTK file
(`pv.read` of a per-part file). Only its point set matters here. -/
structure SurfaceMesh where
  points : List Vec3
deriving DecidableEq

/-- A set of integrated streamline polylines
(result of `streamlines_from_source`), library-produced. -/
structure StreamlineSet where
  lines : List (List Vec3)
deriving DecidableEq

/-- The volumetric CFD dataset (`motorBike_500.vtk`).
`center` is the dataset centroid (`volume_mesh.center`), `array_names`
the named point/cell attributes (`volume_mesh.array_names`), and
`streamlines_from_source` models the library's streamline integration
from given seeds, vector attribute and step budget: `Except.error`
when the underlying call raises. -/
structure VolumetricField where
  center : Vec3
  array_names : List String
  streamlines_from_source : List Vec3 → String → ℕ → Except String StreamlineSet

/-- The union of all per-part surface meshes
(`pv.MultiBlock(bike_parts).combine()`). -/
structure CombinedSurface where
  parts : List SurfaceMesh
deriving DecidableEq

/-- Geometry handed to a single `add_mesh` call: a planar cut of the
volume (`volume_mesh.slice(origin, normal)`), the combined bike surface,
or an integrated streamline set. -/
inductive Geom where
  | slice (origin : Vec3) (normal : Vec3)
  | surface
  | streamlines (s : StreamlineSet)
deriving DecidableEq

/-- One `plotter.add_mesh(...)` call: the geometry plus the styling
keywords the scripts pass. Defaults mirror the library defaults so call
sites list exactly the keywords the Python passes. -/
structure AddMesh where
  geom : Geom
  scalars : Option String := none
  cmap : Option String := none
  color : Option String := none
  opacity : ℚ := 1
  show_edges : Bool := false
  edge_color : Option String := none
  line_width : ℚ := 1
  show_scalar_bar : Bool := true
deriving DecidableEq

/-- One draw/styling command issued into a canvas cell, in program order. -/
inductive Cmd where
  | text (title : String)
  | addMesh (m : AddMesh)
  | scalarBar (title : String)
  | background (color : String)
  | camera (azimuth : ℚ) (elevation : ℚ) (zoom : ℚ)
deriving DecidableEq

/-- Composer `setup_velocity_view` (cell (0,0)): three fixed slices colored by `U`,
the surface overlay, a velocity scalar bar, white background, isometric
camera at azimuth `angle * 0.5`, elevation 20, zoom 1.2. -/
def setup_velocity_view (volume_mesh : VolumetricField)
    (_bike_surface : CombinedSurface) (angle : ℚ) : List Cmd :=
  let center := volume_mesh.center
  [ Cmd.text "Velocity Field (m/s)",
    Cmd.addMesh { geom := Geom.slice center (0, 1, 0), scalars := some "U",
                  cmap := some "jet", opacity := 9/10, show_scalar_bar := false },
    Cmd.addMesh { geom := Geom.slice (center.1 + 1, center.2.1, center.2.2) (1, 0, 0),
                  scalars := some "U", cmap := some "coolwarm", opacity := 6/10,
                  show_scalar_bar := false },
    Cmd.addMesh { geom := Geom.slice (center.1, center.2.1, 8/10) (0, 0, 1),
                  scalars := some "U", cmap := some "plasma", opacity := 4/10,
                  show_scalar_bar := false },
    Cmd.addMesh { geom := Geom.surface, color := some "silver", opacity := 7/10,
                  show_edges := true, edge_color := some "black", line_width := 2/10 },
    Cmd.scalarBar "Velocity",
    Cmd.background "white",
    Cmd.camera (angle * (5/10)) 20 (12/10) ]

/-- Composer `setup_pressure_view` (cell (0,1)): two slices straddling the centroid
at ±0.5 on the flow axis colored by `p`, the surface overlay, a pressure
scalar bar, white background, camera azimuth `angle * 0.5`. -/
def setup_pressure_view (volume_mesh : VolumetricField)
    (_bike_surface : CombinedSurface) (angle : ℚ) : List Cmd :=
  let center := volume_mesh.center
  [ Cmd.text "Pressure Field (Pa)",
    Cmd.addMesh { geom := Geom.slice (center.1 + 5/10, center.2.1, center.2.2) (1, 0, 0),
                  scalars := some "p", cmap := some "coolwarm", opacity := 9/10,
                  show_scalar_bar := false },
    Cmd.addMesh { geom := Geom.slice (center.1 - 5/10, center.2.1, center.2.2) (1, 0, 0),
                  scalars := some "p", cmap := some "RdBu", opacity := 6/10,
                  show_scalar_bar := false },
    Cmd.addMesh { geom := Geom.surface, color := some "darkgray", opacity := 5/10,
                  show_edges := true, edge_color := some "black", line_width := 3/10 },
    Cmd.scalarBar "Pressure",
    Cmd.background "white",
    Cmd.camera (angle * (5/10)) 20 (12/10) ]

/-- Composer `setup_mesh_view` (cell (1,0)): geometry only — the surface overlay,
white background, camera azimuth equal to the full frame angle. It is the
only composer that does not receive the volumetric field at all. -/
def setup_mesh_view (_bike_surface : CombinedSurface) (angle : ℚ) : List Cmd :=
  [ Cmd.text "Motorbike Geometry",
    Cmd.addMesh { geom := Geom.surface, color := some "silver", opacity := 9/10,
                  show_edges := true, edge_color := some "black", line_width := 4/10 },
    Cmd.background "white",
    Cmd.camera angle 25 (13/10) ]

/-- The streamline seed points of `setup_flow_analysis`:
`[[center[0]-3, y, z] for y in [-1.0, 0.0, 1.0] for z in [1.5, 2.0, 2.5]]`. -/
def seed_points (center : Vec3) : List Vec3 :=
  [(-1 : ℚ), 0, 1].flatMap fun y =>
    [(15/10 : ℚ), 2, 25/10].map fun z => (center.1 - 3, y, z)

/-- The priority-ordered attribute selection of `setup_flow_analysis`
(lines 91–99): the chosen scalars name, its color map, and the
`field_name` used for the scalar-bar title. -/
def flow_attr (array_names : List String) : String × String × String :=
  if "omega" ∈ array_names then ("omega", "turbo", "Turbulence")
  else if "k" ∈ array_names then ("k", "hot", "Turbulent Energy")
  else ("U", "viridis", "Velocity")

/-- Composer `setup_flow_analysis` (cell (1,1)): a wake slice at +2.0 downstream
colored by the priority-selected attribute, a `try`-guarded streamline
overlay (silently skipped on error), the surface overlay, a scalar bar
titled by the selected attribute, light-gray background, camera azimuth
`angle * 0.3`. -/
def setup_flow_analysis (volume_mesh : VolumetricField)
    (_bike_surface : CombinedSurface) (angle : ℚ) : List Cmd :=
  let center := volume_mesh.center
  let wake_slice := Geom.slice (center.1 + 2, center.2.1, center.2.2) (1, 0, 0)
  let sel := flow_attr volume_mesh.array_names
  [ Cmd.text "Flow Analysis & Wake",
    Cmd.addMesh { geom := wake_slice, scalars := some sel.1, cmap := some sel.2.1,
                  opacity := 8/10, show_scalar_bar := false } ]
  ++ (match volume_mesh.streamlines_from_source (seed_points center) "U" 100 with
      | Except.ok streamlines =>
        [ Cmd.addMesh { geom := Geom.streamlines streamlines, scalars := some "U",
                        cmap := some "rainbow", line_width := 2, opacity := 9/10,
                        show_scalar_bar := false } ]
      | Except.error _ => [])
  ++ [ Cmd.addMesh { geom := Geom.surface, color := some "darkblue", opacity := 6/10,
                     show_edges := true, edge_color := some "navy", line_width := 3/10 },
       Cmd.scalarBar sel.2.2,
       Cmd.background "lightgray",
       Cmd.camera (angle * (3/10)) 15 1 ]

/-- The four populated cells of one 2×2 canvas frame. -/
structure Frame where
  velocity : List Cmd
  pressure : List Cmd
  geometry : List Cmd
  flow : List Cmd
deriving DecidableEq

/-- The loop body of `create_animation` for one angle: after clearing,
the four composers populate their cells (lines 136–139). -/
def renderFrame (volume_mesh : VolumetricField) (bike_surface : CombinedSurface)
    (angle : ℚ) : Frame :=
  { velocity := setup_velocity_view volume_mesh bike_surface angle
    pressure := setup_pressure_view volume_mesh bike_surface angle
    geometry := setup_mesh_view bike_surface angle
    flow := setup_flow_analysis volume_mesh bike_surface angle }

/-- The per-run state threaded through the frame loop: the loaded data.
The loop body only reads it, so one step returns it unchanged beside the
composed frame. -/
structure RunState where
  volume : VolumetricField
  surface : CombinedSurface

/-- One iteration of the frame loop: compose the four cells at the given
angle; the loaded data is read-only. -/
def frameStep (st : RunState) (angle : ℚ) : RunState × Frame :=
  (st, renderFrame st.volume st.surface angle)

/-- The Python `str.endswith`: the suffix relation on the character
sequences of the two strings. -/
def strEndsWith (s suffix : String) : Bool :=
  suffix.data.isSuffixOf s.data

/-- One file discovered under `motorBike-VTK` by `os.walk`: its base name
and the result of `pv.read` on it (`none` when the read raises). -/
structure FSFile where
  name : String
  surfaceData : Option SurfaceMesh
deriving DecidableEq

/-- The per-part discovery-and-load loop shared by `load_data` (lines
16–24) and `load_motorbike_parts`: keep files whose name ends in
`_500.vtk` and is not the canonical `motorBike_500.vtk`, read each one,
and skip any file whose read raises. -/
def load_motorbike_parts (files : List FSFile) : List SurfaceMesh :=
  files.filterMap fun f =>
    if strEndsWith f.name "_500.vtk" && f.name != "motorBike_500.vtk"
    then f.surfaceData else none

/-- The files matched by the per-part naming convention (before reading). -/
def discovered (files : List FSFile) : List FSFile :=
  files.filter fun f =>
    strEndsWith f.name "_500.vtk" && f.name != "motorBike_500.vtk"

/-- Loader `load_data`: the canonical volumetric dataset (whose own read failure
would propagate, so in the successful path it is a value) together with
the combined surface built from every successfully read per-part file. -/
def load_data (volume_mesh : VolumetricField) (files : List FSFile) :
    VolumetricField × CombinedSurface :=
  (volume_mesh, ⟨load_motorbike_parts files⟩)

/-- Constant of `create_animation`: frames per second. -/
def fps : ℕ := 20

/-- Constant of `create_animation`: duration in seconds. -/
def duration : ℕ := 10

/-- Total frame count, `fps * duration`. -/
def total_frames : ℕ := fps * duration

/-- Value of `np.linspace(0, 360, n, endpoint=False)` at index `k`:
the start plus `k` times the step `(360 - 0) / n`. -/
def angleAt (n : ℕ) (k : ℕ) : ℚ := (k : ℚ) * (360 / (n : ℚ))

/-- The angle sequence driving the animation (one rendered frame each). -/
def angles : List ℚ := (List.range total_frames).map (angleAt total_frames)

/-- Checks that consecutive entries of a list differ by exactly `step`. -/
def evenly_spaced (step : ℚ) : List ℚ → Bool
  | [] => true
  | [_] => true
  | a :: b :: rest => (b - a == step) && evenly_spaced step (b :: rest)

/-- Checks that a list of rationals is strictly increasing. -/
def strictly_increasing : List ℚ → Bool
  | [] => true
  | [_] => true
  | a :: b :: rest => decide (a < b) && strictly_increasing (b :: rest)

/-- The progress checkpoint of line 143,
`(i + 1) % (total_frames // 10) == 0`, with Python `%` semantics made
explicit: a zero right operand raises `ZeroDivisionError`. -/
def progress_check (i : ℕ) (total : ℕ) : Except String Bool :=
  let divisor := total / 10
  if divisor = 0 then Except.error "ZeroDivisionError"
  else Except.ok ((i + 1) % divisor == 0)

/-- The 1-based frame indices at which the driver prints progress, paired
with the printed percentage `((i + 1) / total_frames) * 100` (exact, as
the format only rounds for display). -/
def progress_prints : List (ℕ × ℚ) :=
  (List.range total_frames).filterMap fun i =>
    if (i + 1) % (total_frames / 10) = 0
    then some (i + 1, ((i : ℚ) + 1) / (total_frames : ℚ) * 100)
    else none

/-- The azimuth set by a cell's camera command. -/
def cameraAzimuth (cmds : List Cmd) : Option ℚ :=
  (cmds.filterMap fun c => match c with
    | Cmd.camera az _ _ => some az
    | _ => none).head?

/-- The azimuth of a cell, defaulting to 0 when no camera command exists. -/
def cellAzimuth (cmds : List Cmd) : ℚ := (cameraAzimuth cmds).getD 0

/-- The (origin, normal) pair of every slice a cell draws, in draw order. -/
def sliceSpecs (cmds : List Cmd) : List (Vec3 × Vec3) :=
  cmds.filterMap fun c => match c with
    | Cmd.addMesh m => match m.geom with
      | Geom.slice o n => some (o, n)
      | _ => none
    | _ => none

/-- The title of a cell's scalar-bar legend. -/
def scalarBarTitle (cmds : List Cmd) : Option String :=
  (cmds.filterMap fun c => match c with
    | Cmd.scalarBar t => some t
    | _ => none).head?

/-- The scalars attribute and color map of the first slice a cell draws. -/
def sliceColoring (cmds : List Cmd) : Option (Option String × Option String) :=
  (cmds.filterMap fun c => match c with
    | Cmd.addMesh m => match m.geom with
      | Geom.slice _ _ => some (m.scalars, m.cmap)
      | _ => none
    | _ => none).head?

/-- All slice (origin, normal) pairs issued across the four cells of one
composed frame. -/
def frameSliceSpecs (volume_mesh : VolumetricField) (bike_surface : CombinedSurface)
    (angle : ℚ) : List (Vec3 × Vec3) :=
  sliceSpecs (renderFrame volume_mesh bike_surface angle).velocity
    ++ sliceSpecs (renderFrame volume_mesh bike_surface angle).pressure
    ++ sliceSpecs (renderFrame volume_mesh bike_surface angle).geometry
    ++ sliceSpecs (renderFrame volume_mesh bike_surface angle).flow

/-- A 3-vector with real coordinates, for the exploded view's geometry
(`motorbike_mesh_visualisation.py`, `exploded_view`). -/
abbrev Vec3R : Type := ℝ × ℝ × ℝ

/-- Componentwise vector addition. -/
noncomputable def vadd (a b : Vec3R) : Vec3R := (a.1 + b.1, a.2.1 + b.2.1, a.2.2 + b.2.2)

/-- Componentwise vector subtraction. -/
noncomputable def vsub (a b : Vec3R) : Vec3R := (a.1 - b.1, a.2.1 - b.2.1, a.2.2 - b.2.2)

/-- Scalar multiple of a vector (numpy array times a scalar). -/
noncomputable def smulR (c : ℝ) (v : Vec3R) : Vec3R := (c * v.1, c * v.2.1, c * v.2.2)

/-- Componentwise sum of a list of vectors. -/
noncomputable def vsum (l : List Vec3R) : Vec3R := l.foldr vadd (0, 0, 0)

/-- Euclidean norm, `np.linalg.norm`. -/
noncomputable def vnorm (v : Vec3R) : ℝ :=
  Real.sqrt (v.1 ^ 2 + v.2.1 ^ 2 + v.2.2 ^ 2)

/-- Mean `np.mean(all_centers, axis=0)`: the componentwise mean. -/
noncomputable def vmean (l : List Vec3R) : Vec3R :=
  smulR (1 / (l.length : ℝ)) (vsum l)

/-- A surface part as the exploded view sees it: its point set and its
library-provided center (`part.center`). -/
structure RSurfaceMesh where
  points : List Vec3R
  center : Vec3R

/-- Translation `part.translate(v)`: shift every point (and hence the center) by `v`. -/
noncomputable def RSurfaceMesh.translate (m : RSurfaceMesh) (v : Vec3R) : RSurfaceMesh :=
  ⟨m.points.map (vadd v), vadd v m.center⟩

/-- Constant `explosion_factor = 0.3`. -/
noncomputable def explosion_factor : ℝ := 3 / 10

/-- Centroid `global_center = np.mean(all_centers, axis=0)` over the loaded parts. -/
noncomputable def global_center (parts : List RSurfaceMesh) : Vec3R :=
  vmean (parts.map RSurfaceMesh.center)

/-- The per-part offset direction of `exploded_view` (lines 90–94): the
vector from the global centroid to the part center, normalized when its
norm is positive, and replaced by the zero vector otherwise. -/
noncomputable def offset_direction (part_center gc : Vec3R) : Vec3R :=
  let v := vsub part_center gc
  if vnorm v > 0 then smulR (1 / vnorm v) v else ((0 : ℝ), (0 : ℝ), (0 : ℝ))

/-- One loop step of `exploded_view` (line 96):
`part.translate(offset_direction * explosion_factor)`. -/
noncomputable def exploded_part (part : RSurfaceMesh) (gc : Vec3R) : RSurfaceMesh :=
  part.translate (smulR explosion_factor (offset_direction part.center gc))

/-- A field used as concrete test data: all four attributes present,
streamline integration succeeding with an empty line set. -/
def vmOmega : VolumetricField :=
  { center := (0, 0, 0), array_names := ["U", "p", "k", "omega"],
    streamlines_from_source := fun _ _ _ => Except.ok ⟨[]⟩ }

/-- Concrete test data: `k` present but no `omega`. -/
def vmK : VolumetricField :=
  { center := (0, 0, 0), array_names := ["U", "p", "k"],
    streamlines_from_source := fun _ _ _ => Except.ok ⟨[]⟩ }

/-- Concrete test data: only `U` and `p`, and streamline integration
raising on every call. -/
def vmUP : VolumetricField :=
  { center := (0, 0, 0), array_names := ["U", "p"],
    streamlines_from_source := fun _ _ _ => Except.error "empty vector field" }

/-- Concrete test data: an empty combined surface. -/
def bs0 : CombinedSurface := ⟨[]⟩

/-- Concrete test data: a file listing with the canonical volumetric
file, one readable part, one unreadable part, and one unmatched file. -/
def demoFiles : List FSFile :=
  [ ⟨"motorBike_500.vtk", none⟩,
    ⟨"motorBike-frame_500.vtk", some ⟨[(0, 0, 0)]⟩⟩,
    ⟨"motorBike-rearwheel_500.vtk", none⟩,
    ⟨"README.txt", none⟩ ]

/-- Concrete test data: the readable part file of `demoFiles`. -/
def demoPartFile : FSFile := ⟨"motorBike-frame_500.vtk", some ⟨[(0, 0, 0)]⟩⟩

/-- Concrete test data: a part with an empty point set centered at the
origin. -/
noncomputable def partO : RSurfaceMesh := ⟨[], (0, 0, 0)⟩

/-- The flow-analysis cell's scalar bar is titled by the priority-selected
attribute, whether or not streamline integration succeeds. -/
theorem flow_scalarBarTitle_eq (vm : VolumetricField) (bs : CombinedSurface) (a : ℚ) :
    scalarBarTitle (setup_flow_analysis vm bs a) = some (flow_attr vm.array_names).2.2 := by
  cases h : vm.streamlines_from_source (seed_points vm.center) "U" 100 <;>
    simp [setup_flow_analysis, scalarBarTitle, h]

/-- The flow-analysis cell's wake slice is colored by the priority-selected
attribute and its matching color map. -/
theorem flow_sliceColoring_eq (vm : VolumetricField) (bs : CombinedSurface) (a : ℚ) :
    sliceColoring (setup_flow_analysis vm bs a)
      = some (some (flow_attr vm.array_names).1, some (flow_attr vm.array_names).2.1) := by
  cases h : vm.streamlines_from_source (seed_points vm.center) "U" 100 <;>
    simp [setup_flow_analysis, sliceColoring, h]

/-- The flow-analysis cell's camera azimuth is 0.3 times the frame angle. -/
theorem flow_cameraAzimuth_eq (vm : VolumetricField) (bs : CombinedSurface) (a : ℚ) :
    cameraAzimuth (setup_flow_analysis vm bs a) = some (a * (3/10)) := by
  cases h : vm.streamlines_from_source (seed_points vm.center) "U" 100 <;>
    simp [setup_flow_analysis, cameraAzimuth, h]

/-- The flow-analysis cell draws exactly one slice: the +2.0 wake cut. -/
theorem flow_sliceSpecs_eq (vm : VolumetricField) (bs : CombinedSurface) (a : ℚ) :
    sliceSpecs (setup_flow_analysis vm bs a) =
      [((vm.center.1 + 2, vm.center.2.1, vm.center.2.2), ((1 : ℚ), (0 : ℚ), (0 : ℚ)))] := by
  cases h : vm.streamlines_from_source (seed_points vm.center) "U" 100 <;>
    simp [setup_flow_analysis, sliceSpecs, h]

/-- The loaded parts are exactly the successfully read discovered files. -/
theorem load_parts_eq (files : List FSFile) :
    load_motorbike_parts files = (discovered files).filterMap FSFile.surfaceData := by
  induction files with
  | nil => rfl
  | cons f rest ih =>
    by_cases h1 : strEndsWith f.name "_500.vtk" = true
    · by_cases h2 : f.name = "motorBike_500.vtk"
      · simp [load_motorbike_parts, discovered, List.filterMap_cons, List.filter_cons,
          h1, h2] at ih ⊢
        exact ih
      · simp [load_motorbike_parts, discovered, List.filterMap_cons, List.filter_cons,
          h1, h2] at ih ⊢
        cases hs : f.surfaceData <;> simp [hs, ih]
    · simp [load_motorbike_parts, discovered, List.filterMap_cons, List.filter_cons,
        h1] at ih ⊢
      exact ih

/-- Lemma: `filterMap` keeps exactly the entries the map does not drop. -/
theorem filterMap_length_add {α β : Type} (g : α → Option β) (l : List α) :
    (l.filterMap g).length + (l.filter fun a => (g a).isNone).length = l.length := by
  induction l with
  | nil => rfl
  | cons x xs ih =>
    cases h : g x <;> simp [List.filterMap_cons, List.filter_cons, h] <;> omega

/-- C2: for every volumetric field, the flow-analysis composer selects the
colored attribute by priority — `omega` if present, else `k`, else `U` —
and the scalar-bar title and color map always match the selection. -/
theorem flow_attr_priority_selection :
    ∀ (vm : VolumetricField) (bs : CombinedSurface) (a : ℚ),
      ("omega" ∈ vm.array_names →
        sliceColoring (setup_flow_analysis vm bs a) = some (some "omega", some "turbo") ∧
        scalarBarTitle (setup_flow_analysis vm bs a) = some "Turbulence") ∧
      ("omega" ∉ vm.array_names → "k" ∈ vm.array_names →
        sliceColoring (setup_flow_analysis vm bs a) = some (some "k", some "hot") ∧
        scalarBarTitle (setup_flow_analysis vm bs a) = some "Turbulent Energy") ∧
      ("omega" ∉ vm.array_names → "k" ∉ vm.array_names →
        sliceColoring (setup_flow_analysis vm bs a) = some (some "U", some "viridis") ∧
        scalarBarTitle (setup_flow_analysis vm bs a) = some "Velocity") := by
  intro vm bs a
  refine ⟨fun h1 => ?_, fun h1 h2 => ?_, fun h1 h2 => ?_⟩ <;>
    rw [flow_sliceColoring_eq, flow_scalarBarTitle_eq] <;>
    simp [flow_attr, h1]
  · simp [h2]
  · simp [h2]

/-- C2 witness: the selection at three concrete fields — both turbulence
scalars present, only `k` present, and neither present. -/
theorem flow_attr_priority_selection_witness :
    ("omega" ∈ vmOmega.array_names ∧
      sliceColoring (setup_flow_analysis vmOmega bs0 0) = some (some "omega", some "turbo") ∧
      scalarBarTitle (setup_flow_analysis vmOmega bs0 0) = some "Turbulence") ∧
    ("omega" ∉ vmK.array_names ∧ "k" ∈ vmK.array_names ∧
      sliceColoring (setup_flow_analysis vmK bs0 0) = some (some "k", some "hot") ∧
      scalarBarTitle (setup_flow_analysis vmK bs0 0) = some "Turbulent Energy") ∧
    ("omega" ∉ vmUP.array_names ∧ "k" ∉ vmUP.array_names ∧
      sliceColoring (setup_flow_analysis vmUP bs0 0) = some (some "U", some "viridis") ∧
      scalarBarTitle (setup_flow_analysis vmUP bs0 0) = some "Velocity") := by
  have h1 := (flow_attr_priority_selection vmOmega bs0 0).1 (by decide)
  have h2 := (flow_attr_priority_selection vmK bs0 0).2.1 (by decide) (by decide)
  have h3 := (flow_attr_priority_selection vmUP bs0 0).2.2 (by decide) (by decide)
  exact ⟨⟨by decide, h1.1, h1.2⟩, ⟨by decide, by decide, h2.1, h2.2⟩,
    ⟨by decide, by decide, h3.1, h3.2⟩⟩

/-- C3 counterexample: the claim pairs multiplier 1.0 with the velocity
cell, but at frame angle 10 the velocity cell's azimuth is 5, not
1.0 × 10. -/
theorem azimuth_multiplier_order_counterexample :
    cameraAzimuth (setup_velocity_view vmOmega bs0 10) = some 5 ∧
    ¬ cameraAzimuth (setup_velocity_view vmOmega bs0 10) = some ((1 : ℚ) * 10) := by
  constructor
  · with_unfolding_all decide
  · with_unfolding_all decide

/-- C3 amended: the azimuth multipliers are 0.5, 0.5, 1.0, 0.3 for the
velocity, pressure, geometry and flow-analysis cells respectively, and the
geometry cell is the only one whose azimuth equals the full frame angle. -/
theorem azimuth_multipliers_per_cell :
    ∀ (vm : VolumetricField) (bs : CombinedSurface) (a : ℚ),
      cameraAzimuth (setup_velocity_view vm bs a) = some (a * (5/10)) ∧
      cameraAzimuth (setup_pressure_view vm bs a) = some (a * (5/10)) ∧
      cameraAzimuth (setup_mesh_view bs a) = some a ∧
      cameraAzimuth (setup_flow_analysis vm bs a) = some (a * (3/10)) ∧
      (a ≠ 0 →
        cameraAzimuth (setup_velocity_view vm bs a) ≠ some a ∧
        cameraAzimuth (setup_pressure_view vm bs a) ≠ some a ∧
        cameraAzimuth (setup_flow_analysis vm bs a) ≠ some a) := by
  intro vm bs a
  refine ⟨rfl, rfl, rfl, flow_cameraAzimuth_eq vm bs a, fun ha => ⟨?_, ?_, ?_⟩⟩
  · rw [show cameraAzimuth (setup_velocity_view vm bs a) = some (a * (5/10)) from rfl]
    intro h
    have := Option.some.inj h
    apply ha
    linarith
  · rw [show cameraAzimuth (setup_pressure_view vm bs a) = some (a * (5/10)) from rfl]
    intro h
    have := Option.some.inj h
    apply ha
    linarith
  · rw [flow_cameraAzimuth_eq]
    intro h
    have := Option.some.inj h
    apply ha
    linarith

/-- C3 amended witness: the multipliers at frame angle 10. -/
theorem azimuth_multipliers_per_cell_witness :
    (10 : ℚ) ≠ 0 ∧
    cameraAzimuth (setup_mesh_view bs0 10) = some 10 ∧
    cameraAzimuth (setup_velocity_view vmOmega bs0 10) ≠ some 10 ∧
    cameraAzimuth (setup_pressure_view vmOmega bs0 10) ≠ some 10 ∧
    cameraAzimuth (setup_flow_analysis vmOmega bs0 10) ≠ some 10 := by
  have h := azimuth_multipliers_per_cell vmOmega bs0 10
  have hne := h.2.2.2.2 (by norm_num)
  exact ⟨by norm_num, h.2.2.1, hne.1, hne.2.1, hne.2.2⟩

/-- C10: the geometry cell receives only the combined surface and the
frame angle, so two runs differing only in the volumetric field compose
identical geometry cells. -/
theorem mesh_view_noninterference :
    ∀ (vm vm' : VolumetricField) (bs : CombinedSurface) (a : ℚ),
      (renderFrame vm bs a).geometry = (renderFrame vm' bs a).geometry :=
  fun _ _ _ _ => rfl

/-- C4: whenever streamline integration raises, the flow-analysis cell
still draws the wake slice, the surface overlay and the scalar bar, and
draws no streamlines; the error never escapes the composer. -/
theorem streamline_failure_contained :
    ∀ (vm : VolumetricField) (bs : CombinedSurface) (a : ℚ) (e : String),
      vm.streamlines_from_source (seed_points vm.center) "U" 100 = Except.error e →
      Cmd.addMesh { geom := Geom.slice (vm.center.1 + 2, vm.center.2.1, vm.center.2.2) (1, 0, 0),
                    scalars := some (flow_attr vm.array_names).1,
                    cmap := some (flow_attr vm.array_names).2.1,
                    opacity := 8/10, show_scalar_bar := false }
          ∈ setup_flow_analysis vm bs a ∧
      Cmd.addMesh { geom := Geom.surface, color := some "darkblue", opacity := 6/10,
                    show_edges := true, edge_color := some "navy", line_width := 3/10 }
          ∈ setup_flow_analysis vm bs a ∧
      Cmd.scalarBar (flow_attr vm.array_names).2.2 ∈ setup_flow_analysis vm bs a ∧
      (∀ (s : StreamlineSet) (m : AddMesh), m.geom = Geom.streamlines s →
        Cmd.addMesh m ∉ setup_flow_analysis vm bs a) := by
  intro vm bs a e h
  refine ⟨?_, ?_, ?_, ?_⟩
  · simp [setup_flow_analysis, h]
  · simp [setup_flow_analysis, h]
  · simp [setup_flow_analysis, h]
  · intro s m hm hmem
    simp [setup_flow_analysis, h] at hmem
    rcases hmem with h1 | h1 <;> subst h1 <;> simp at hm

/-- C4 witness: a field whose streamline integration always raises. -/
theorem streamline_failure_contained_witness :
    vmUP.streamlines_from_source (seed_points vmUP.center) "U" 100
        = Except.error "empty vector field" ∧
    Cmd.addMesh { geom := Geom.slice (vmUP.center.1 + 2, vmUP.center.2.1, vmUP.center.2.2)
                    (1, 0, 0),
                  scalars := some (flow_attr vmUP.array_names).1,
                  cmap := some (flow_attr vmUP.array_names).2.1,
                  opacity := 8/10, show_scalar_bar := false }
        ∈ setup_flow_analysis vmUP bs0 0 ∧
    Cmd.scalarBar (flow_attr vmUP.array_names).2.2 ∈ setup_flow_analysis vmUP bs0 0 := by
  have h := streamline_failure_contained vmUP bs0 0 "empty vector field" rfl
  exact ⟨rfl, h.1, h.2.2.1⟩

/-- C5: for every file listing, the combined surface holds exactly the
discovered per-part files minus those whose read raised (so never more
than discovered), and no discovered file is the canonical volumetric
file. -/
theorem combined_surface_part_count :
    ∀ files : List FSFile,
      (load_motorbike_parts files).length
          = (discovered files).length
            - ((discovered files).filter fun f => f.surfaceData.isNone).length ∧
      (load_motorbike_parts files).length ≤ (discovered files).length ∧
      ∀ f ∈ discovered files, f.name ≠ "motorBike_500.vtk" := by
  intro files
  have e := load_parts_eq files
  have s := filterMap_length_add FSFile.surfaceData (discovered files)
  refine ⟨by rw [e]; omega, by rw [e]; omega, fun f hf => ?_⟩
  simp only [discovered, List.mem_filter, Bool.and_eq_true, bne_iff_ne] at hf
  exact hf.2.2

/-- C5 witness: a listing with the canonical file, one readable part, one
unreadable part and one unmatched file. -/
theorem combined_surface_part_count_witness :
    (load_motorbike_parts demoFiles).length
        = (discovered demoFiles).length
          - ((discovered demoFiles).filter fun f => f.surfaceData.isNone).length ∧
    (load_motorbike_parts demoFiles).length ≤ (discovered demoFiles).length ∧
    demoPartFile ∈ discovered demoFiles ∧
    demoPartFile.name ≠ "motorBike_500.vtk" ∧
    (load_motorbike_parts demoFiles).length = 1 ∧
    (discovered demoFiles).length = 2 := by
  have h := combined_surface_part_count demoFiles
  exact ⟨h.1, h.2.1, by decide, h.2.2 demoPartFile (by decide), by decide, by decide⟩

/-- C6: with the fixed constants (200 frames), progress prints fire
exactly at frames 20, 40, …, 200 — ten in all — and the printed
percentages are strictly increasing and end at 100. -/
theorem progress_print_schedule :
    total_frames = 200 ∧
    progress_prints.map Prod.fst = [20, 40, 60, 80, 100, 120, 140, 160, 180, 200] ∧
    progress_prints.length = 10 ∧
    progress_prints.map Prod.snd = [10, 20, 30, 40, 50, 60, 70, 80, 90, 100] ∧
    strictly_increasing (progress_prints.map Prod.snd) = true ∧
    (progress_prints.map Prod.snd).getLast? = some 100 := by
  refine ⟨rfl, by decide, by decide, ?_, ?_, ?_⟩
  · with_unfolding_all decide
  · with_unfolding_all decide
  · with_unfolding_all decide

/-- C7: the progress checkpoint divides by `total_frames // 10`; any
configuration with fewer than 10 total frames hits an unhandled
`ZeroDivisionError`, while 10 or more frames (in particular the program's
200) make the error branch unreachable. -/
theorem progress_divisor_guard :
    (∀ i total : ℕ, total < 10 → progress_check i total = Except.error "ZeroDivisionError") ∧
    (∀ i total : ℕ, 10 ≤ total → ∃ b, progress_check i total = Except.ok b) ∧
    (∀ i : ℕ, progress_check i total_frames = Except.ok ((i + 1) % 20 == 0)) := by
  refine ⟨fun i total h => ?_, fun i total h => ?_, fun i => ?_⟩
  · have hz : total / 10 = 0 := Nat.div_eq_of_lt h
    simp [progress_check, hz]
  · have hp : total / 10 ≠ 0 := (Nat.div_pos h (by norm_num)).ne'
    exact ⟨(i + 1) % (total / 10) == 0, by simp [progress_check, hp]⟩
  · simp [progress_check, total_frames, fps, duration]

/-- C7 witness: the checkpoint at 5 total frames raises, at 200 it does
not. -/
theorem progress_divisor_guard_witness :
    (5 : ℕ) < 10 ∧ progress_check 0 5 = Except.error "ZeroDivisionError" ∧
    (10 : ℕ) ≤ 200 ∧ (∃ b, progress_check 0 200 = Except.ok b) := by
  exact ⟨by decide, progress_divisor_guard.1 0 5 (by decide), by decide,
    progress_divisor_guard.2.1 0 200 (by decide)⟩

/-- The slice cuts of one composed frame: three velocity cuts, two
pressure cuts, none for geometry, and the flow-analysis wake cut — all
determined by the field centroid and fixed offsets alone. -/
theorem frameSliceSpecs_eq (vm : VolumetricField) (bs : CombinedSurface) (a : ℚ) :
    frameSliceSpecs vm bs a =
      [ (vm.center, ((0 : ℚ), (1 : ℚ), (0 : ℚ))),
        ((vm.center.1 + 1, vm.center.2.1, vm.center.2.2), (1, 0, 0)),
        ((vm.center.1, vm.center.2.1, 8/10), (0, 0, 1)),
        ((vm.center.1 + 5/10, vm.center.2.1, vm.center.2.2), (1, 0, 0)),
        ((vm.center.1 - 5/10, vm.center.2.1, vm.center.2.2), (1, 0, 0)),
        ((vm.center.1 + 2, vm.center.2.1, vm.center.2.2), (1, 0, 0)) ] := by
  have h4 : sliceSpecs (renderFrame vm bs a).flow =
      [((vm.center.1 + 2, vm.center.2.1, vm.center.2.2), ((1 : ℚ), (0 : ℚ), (0 : ℚ)))] :=
    flow_sliceSpecs_eq vm bs a
  simp only [frameSliceSpecs, h4]
  rfl

/-- C8: slice origins and normals are identical at every frame angle and
depend only on the field centroid, and one loop step leaves the loaded
data unchanged. -/
theorem slice_geometry_frame_invariant :
    ∀ (vm vm' : VolumetricField) (bs bs' : CombinedSurface) (st : RunState) (a a' : ℚ),
      frameSliceSpecs vm bs a = frameSliceSpecs vm bs a' ∧
      (vm.center = vm'.center → frameSliceSpecs vm bs a = frameSliceSpecs vm' bs' a) ∧
      (frameStep st a).1 = st := by
  intro vm vm' bs bs' st a a'
  refine ⟨?_, fun hc => ?_, rfl⟩
  · rw [frameSliceSpecs_eq, frameSliceSpecs_eq]
  · rw [frameSliceSpecs_eq, frameSliceSpecs_eq, hc]

/-- C8 witness: two fields with equal centroids, two angles. -/
theorem slice_geometry_frame_invariant_witness :
    vmOmega.center = vmUP.center ∧
    frameSliceSpecs vmOmega bs0 0 = frameSliceSpecs vmOmega bs0 90 ∧
    frameSliceSpecs vmOmega bs0 0 = frameSliceSpecs vmUP bs0 0 ∧
    (frameStep ⟨vmOmega, bs0⟩ 0).1 = ⟨vmOmega, bs0⟩ := by
  have h := slice_geometry_frame_invariant vmOmega vmUP bs0 bs0 ⟨vmOmega, bs0⟩ 0 90
  exact ⟨rfl, h.1, h.2.1 rfl, h.2.2⟩

/-- The Euclidean norm is nonnegative. -/
theorem vnorm_nonneg (v : Vec3R) : 0 ≤ vnorm v := Real.sqrt_nonneg _

/-- The Euclidean norm vanishes exactly on the zero vector. -/
theorem vnorm_eq_zero_iff (v : Vec3R) :
    vnorm v = 0 ↔ v = ((0 : ℝ), (0 : ℝ), (0 : ℝ)) := by
  obtain ⟨x, y, z⟩ := v
  simp only [vnorm]
  rw [Real.sqrt_eq_zero (by positivity)]
  constructor
  · intro h
    have hx : x = 0 := by nlinarith [sq_nonneg x, sq_nonneg y, sq_nonneg z]
    have hy : y = 0 := by nlinarith [sq_nonneg x, sq_nonneg y, sq_nonneg z]
    have hz : z = 0 := by nlinarith [sq_nonneg x, sq_nonneg y, sq_nonneg z]
    simp [hx, hy, hz]
  · intro h
    simp only [Prod.ext_iff] at h
    obtain ⟨h1, h2, h3⟩ := h
    rw [h1, h2, h3]
    norm_num

/-- Translating a part by the zero vector leaves it unchanged. -/
theorem translate_by_zero (m : RSurfaceMesh) :
    m.translate ((0 : ℝ), (0 : ℝ), (0 : ℝ)) = m := by
  obtain ⟨pts, c⟩ := m
  have h : vadd (0 : Vec3R) = id := by
    funext p
    simp [vadd]
  simp [RSurfaceMesh.translate, h]

/-- C9: the exploded view's offset direction is total — a part centered
exactly at the global centroid gets the zero direction (so it is
translated by zero), and otherwise the norm divided by is positive, so no
division by zero occurs. -/
theorem exploded_offset_total :
    ∀ (parts : List RSurfaceMesh) (part : RSurfaceMesh),
      (part.center = global_center parts →
        offset_direction part.center (global_center parts) = ((0 : ℝ), (0 : ℝ), (0 : ℝ)) ∧
        exploded_part part (global_center parts) = part) ∧
      (offset_direction part.center (global_center parts) = ((0 : ℝ), (0 : ℝ), (0 : ℝ)) ∨
        0 < vnorm (vsub part.center (global_center parts))) := by
  intro parts part
  constructor
  · intro h
    have hv : vsub part.center (global_center parts) = ((0 : ℝ), (0 : ℝ), (0 : ℝ)) := by
      rw [h]
      simp [vsub]
    have hn : vnorm (vsub part.center (global_center parts)) = 0 :=
      (vnorm_eq_zero_iff _).mpr hv
    have hdir : offset_direction part.center (global_center parts)
        = ((0 : ℝ), (0 : ℝ), (0 : ℝ)) := by
      simp [offset_direction, hn]
    refine ⟨hdir, ?_⟩
    unfold exploded_part
    rw [hdir]
    have hs : smulR explosion_factor ((0 : ℝ), (0 : ℝ), (0 : ℝ))
        = ((0 : ℝ), (0 : ℝ), (0 : ℝ)) := by
      simp [smulR]
    rw [hs]
    exact translate_by_zero part
  · rcases lt_or_eq_of_le (vnorm_nonneg (vsub part.center (global_center parts))) with hp | hp
    · exact Or.inr hp
    · left
      have h0 : vnorm (vsub part.center (global_center parts)) = 0 := hp.symm
      simp [offset_direction, h0]

/-- C9 witness: a single part centered at the origin, which is then the
global centroid. -/
theorem exploded_offset_total_witness :
    partO.center = global_center [partO] ∧
    offset_direction partO.center (global_center [partO]) = ((0 : ℝ), (0 : ℝ), (0 : ℝ)) ∧
    exploded_part partO (global_center [partO]) = partO := by
  have hc : partO.center = global_center [partO] := by
    simp [partO, global_center, vmean, vsum, vadd, smulR]
  have h := (exploded_offset_total [partO] partO).1 hc
  exact ⟨hc, h.1, h.2⟩

/-- C1: the angle sequence has exactly 200 entries evenly spaced by
360/200 starting at 0, and over the 200 frames the geometry cell's
azimuth advances by exactly 360° while each other cell advances by its
multiplier times 360°. -/
theorem animation_sequence_full_rotation :
    total_frames = 200 ∧
    angles.length = total_frames ∧
    angles.head? = some 0 ∧
    evenly_spaced (360 / (total_frames : ℚ)) angles = true ∧
    (∀ bs : CombinedSurface,
      ∑ k in Finset.range total_frames,
        (cellAzimuth (setup_mesh_view bs (angleAt total_frames (k + 1))) -
          cellAzimuth (setup_mesh_view bs (angleAt total_frames k))) = 360) ∧
    (∀ (vm : VolumetricField) (bs : CombinedSurface),
      ∑ k in Finset.range total_frames,
        (cellAzimuth (setup_velocity_view vm bs (angleAt total_frames (k + 1))) -
          cellAzimuth (setup_velocity_view vm bs (angleAt total_frames k))) = (5/10) * 360) ∧
    (∀ (vm : VolumetricField) (bs : CombinedSurface),
      ∑ k in Finset.range total_frames,
        (cellAzimuth (setup_pressure_view vm bs (angleAt total_frames (k + 1))) -
          cellAzimuth (setup_pressure_view vm bs (angleAt total_frames k))) = (5/10) * 360) ∧
    (∀ (vm : VolumetricField) (bs : CombinedSurface),
      ∑ k in Finset.range total_frames,
        (cellAzimuth (setup_flow_analysis vm bs (angleAt total_frames (k + 1))) -
          cellAzimuth (setup_flow_analysis vm bs (angleAt total_frames k))) = (3/10) * 360) := by
  refine ⟨rfl, by simp [angles], by with_unfolding_all decide,
    by with_unfolding_all decide, fun bs => ?_, fun vm bs => ?_, fun vm bs => ?_,
    fun vm bs => ?_⟩
  · have hext : ∀ x : ℚ, cellAzimuth (setup_mesh_view bs x) = x := fun x => rfl
    simp only [hext]
    rw [Finset.sum_range_sub (angleAt total_frames) total_frames]
    norm_num [angleAt, total_frames, fps, duration]
  · have hext : ∀ x : ℚ, cellAzimuth (setup_velocity_view vm bs x) = x * (5/10) :=
      fun x => rfl
    simp only [hext]
    have t := Finset.sum_range_sub (fun k => angleAt total_frames k * (5/10)) total_frames
    simp only [] at t
    rw [t]
    norm_num [angleAt, total_frames, fps, duration]
  · have hext : ∀ x : ℚ, cellAzimuth (setup_pressure_view vm bs x) = x * (5/10) :=
      fun x => rfl
    simp only [hext]
    have t := Finset.sum_range_sub (fun k => angleAt total_frames k * (5/10)) total_frames
    simp only [] at t
    rw [t]
    norm_num [angleAt, total_frames, fps, duration]
  · have hext : ∀ x : ℚ, cellAzimuth (setup_flow_analysis vm bs x) = x * (3/10) := by
      intro x
      simp [cellAzimuth, flow_cameraAzimuth_eq]
    simp only [hext]
    have t := Finset.sum_range_sub (fun k => angleAt total_frames k * (3/10)) total_frames
    simp only [] at t
    rw [t]
    norm_num [angleAt, total_frames, fps, duration]
